import Mathlib

/-!
Verification of `custom_sorl_thumbnail/backends.py` against its specification.

The Python module defines:
* `SEOThumbnailBackend._get_thumbnail_filename` — a deterministic path namer;
* `SafeSEOThumbnailBackend.get_thumbnail` — the cache-aware orchestrator;
* module-level transforms `autocrop`, `fit`, `invert`, `pad`, `round`, `ltbx`.

External collaborators (the sorl engine, key-value store, Django storage,
`slugify`, `tokey`/`serialize`, the `EXTENSIONS` table and settings) are out of
scope per the spec; they are passed in as parameters / environment records.
Machine behaviour is modelled shallowly: Python strings become `String`,
dictionaries of options become association lists, the decoded raster becomes a
size plus a total pixel function, and a raised-but-uncaught Python exception
becomes `Except.error`.
-/

namespace CustomSorl

/-- A Python value, as far as the option dictionaries in this module use them. -/
inductive PyVal
  | pynone
  | bool (b : Bool)
  | str (s : String)
  | int (n : Int)
deriving DecidableEq

/-- Python truthiness for the modelled values. -/
def PyVal.truthy : PyVal → Bool
  | .pynone => false
  | .bool b => b
  | .str s => s ≠ ""
  | .int n => n ≠ 0

/-- An options dictionary: an association list keyed by option name. -/
abbrev Options := List (String × PyVal)

/-- Python `key in opts` on a dictionary. -/
def containsKey (opts : Options) (k : String) : Bool :=
  opts.any (fun kv => kv.1 = k)

/-- Python `opts[key]`, as an `Option` (`none` models `KeyError`). -/
def lookupKey (opts : Options) (k : String) : Option PyVal :=
  (opts.find? (fun kv => kv.1 = k)).map (fun kv => kv.2)

/-- Python `bool(opts.get(key, None))`. -/
def truthyGet (opts : Options) (k : String) : Bool :=
  match lookupKey opts k with
  | some v => v.truthy
  | none => false

/-- Python `opts.setdefault(key, value)` (returning the updated dictionary). -/
def setdefault (opts : Options) (k : String) (v : PyVal) : Options :=
  if containsKey opts k then opts else opts ++ [(k, v)]

/-! ### String helpers

Python `str.split(sep)` with a one-character separator, `str.startswith`,
and code-point slicing, modelled over the character list of a `String` so that
they evaluate by `decide` on concrete inputs. -/

/-- Split a character list at every occurrence of `sep` (Python `str.split`). -/
def splitChars (sep : Char) : List Char → List (List Char)
  | [] => [[]]
  | c :: cs =>
    let r := splitChars sep cs
    if c = sep then [] :: r
    else
      match r with
      | [] => [[c]]
      | g :: gs => (c :: g) :: gs

/-- Python `s.split(sep)` for a one-character separator. -/
def pySplitOn (s : String) (sep : Char) : List String :=
  (splitChars sep s.data).map (fun cs => String.mk cs)

/-- Python `s[:n]` (slicing by code points). -/
def strTake (s : String) (n : Nat) : String := String.mk (s.data.take n)

/-- Python `s[n:]` (slicing by code points). -/
def strDrop (s : String) (n : Nat) : String := String.mk (s.data.drop n)

/-- Python `s.startswith(p)`. -/
def pyStartsWith (s p : String) : Bool := p.data.isPrefixOf s.data

/-- Python `list.insert(-1, a)`: insert `a` immediately before the last
element (on an empty list, `insert(-1, a)` appends). -/
def insertBeforeLast : List α → α → List α
  | [], a => [a]
  | [x], a => [a, x]
  | x :: y :: xs, a => x :: insertBeforeLast (y :: xs) a

/-! ### The path namer: `SEOThumbnailBackend._get_thumbnail_filename` -/

/-- The namer's external collaborators and settings:
`settings.THUMBNAIL_PREFIX` (`pfx`), sorl's `tokey` and `serialize` helpers,
Django's `slugify`, and sorl's `EXTENSIONS` format→extension table. -/
structure NamerEnv where
  pfx : String
  tokey : String → String → String → String
  serialize : Options → String
  slugify : String → String
  extensions : String → Option String

/-- The segment list built by `_get_thumbnail_filename` before joining:
split the storage-relative source name on the separator, insert the geometry
string, then the first two and next two characters of
`tokey(source.key, geometry_string, serialize(options))`, each immediately
before the filename; finally rewrite the filename to
`slugify(stem) + "." + EXTENSIONS[options["format"]]`, keeping the original
filename whenever that expression raises (missing/unusable `format` key or no
table entry — the source wraps it in a bare `try/except`). -/
def thumbnail_segments (env : NamerEnv) (sourceName sourceKey geometry : String)
    (options : Options) : List String :=
  let split_path := pySplitOn sourceName '/'
  let split_path := insertBeforeLast split_path geometry
  let key := env.tokey sourceKey geometry (env.serialize options)
  let split_path := insertBeforeLast split_path (strTake key 2)
  let split_path := insertBeforeLast split_path (strTake (strDrop key 2) 2)
  let fname := split_path.getLastD ""
  let split_name := pySplitOn fname '.'
  let newLast :=
    match lookupKey options "format" with
    | some (PyVal.str fmt) =>
      match env.extensions fmt with
      | some ext =>
        env.slugify (String.intercalate "." split_name.dropLast) ++ "." ++ ext
      | none => fname
    | _ => fname
  split_path.dropLast ++ [newLast]

/-- The joined path, before the prefix check (`os.sep.join(split_path)`). -/
def joined_thumbnail_path (env : NamerEnv) (sourceName sourceKey geometry : String)
    (options : Options) : String :=
  String.intercalate "/" (thumbnail_segments env sourceName sourceKey geometry options)

/-- The final prefix check of `_get_thumbnail_filename`: prepend
`THUMBNAIL_PREFIX` unless the path already starts with it. -/
def addPfxUnlessPresent (pfx path : String) : String :=
  if pyStartsWith path pfx then path else pfx ++ path

/-- `SEOThumbnailBackend._get_thumbnail_filename` (backends.py lines 25–53). -/
def get_thumbnail_filename (env : NamerEnv) (sourceName sourceKey geometry : String)
    (options : Options) : String :=
  addPfxUnlessPresent env.pfx (joined_thumbnail_path env sourceName sourceKey geometry options)

/-! ### The raster model and the transform library

A decoded PIL image is modelled as a size plus a total pixel function (RGB
channels as naturals; coordinates as integers, with values outside the
`[0,w) × [0,h)` window irrelevant ghost values). Colour modes are not
modelled: every image is treated as RGB, and `convert("RGB")` is the
identity. -/

/-- An RGB colour. -/
abbrev Color := Nat × Nat × Nat

/-- A decoded raster: dimensions plus a total pixel function. -/
structure Img where
  w : Nat
  h : Nat
  pix : Int → Int → Color

/-- `Image.new("RGB", size, color)`: a uniformly filled canvas. -/
def imageNew (size : Nat × Nat) (c : Color) : Img :=
  ⟨size.1, size.2, fun _ _ => c⟩

/-- `canvas.paste(im, (left, top))`: overlay `im` on `canvas` at the given
offsets; the canvas keeps its own size. -/
def paste (canvas im : Img) (left top : Int) : Img :=
  { canvas with
    pix := fun x y =>
      if left ≤ x ∧ x < left + im.w ∧ top ≤ y ∧ y < top + im.h then
        im.pix (x - left) (y - top)
      else canvas.pix x y }

/-- `im.resize(size)`: the engine's resampling is out of scope, so the model
fixes the new dimensions and samples the source nearest-neighbour style; no
claim inspects resampled pixel values. -/
def resize (im : Img) (size : Nat × Nat) : Img :=
  ⟨size.1, size.2, fun x y =>
    im.pix (x * im.w / (size.1 : Int)) (y * im.h / (size.2 : Int))⟩

/-- Channel-wise photometric negation (`ImageChops.invert` /
`ImageOps.invert` on an RGB image): each channel becomes `255 - c`. -/
def chInvert (c : Color) : Color := (255 - c.1, 255 - c.2.1, 255 - c.2.2)

/-- `ImageEnhance.Brightness(im).enhance(1.12)`: channel-wise scaling by
1.12 clipped to 255; the engine's exact float rounding is out of scope and is
modelled as truncation (no claim inspects brightened pixel values). -/
def enhanceBrightness (im : Img) : Img :=
  { im with pix := fun x y =>
      let c := im.pix x y
      (min 255 (c.1 * 112 / 100), min 255 (c.2.1 * 112 / 100), min 255 (c.2.2 * 112 / 100)) }

/-- Coordinates (within the pixel grid) whose colour is non-zero, for
`getbbox`. -/
def nonZeroCoords (im : Img) : List (Nat × Nat) :=
  (List.range im.w).flatMap fun (x : Nat) =>
    (List.range im.h).filterMap fun (y : Nat) =>
      if im.pix (Int.ofNat x) (Int.ofNat y) ≠ (0, 0, 0) then some (x, y) else none

/-- `im.getbbox()`: the bounding box `(left, upper, right, lower)` of the
non-zero region, with exclusive right/lower bounds; `none` when the image is
entirely zero. -/
def getbbox (im : Img) : Option (Nat × Nat × Nat × Nat) :=
  match nonZeroCoords im with
  | [] => none
  | c :: cs =>
    let xs := (c :: cs).map (fun p => p.1)
    let ys := (c :: cs).map (fun p => p.2)
    some (xs.foldl min c.1, ys.foldl min c.2,
          xs.foldl max c.1 + 1, ys.foldl max c.2 + 1)

/-- `im.crop((left, upper, right, lower))`. -/
def crop (im : Img) (box : Nat × Nat × Nat × Nat) : Img :=
  ⟨box.2.2.1 - box.1, box.2.2.2 - box.2.1,
   fun x y => im.pix (x + box.1) (y + box.2.1)⟩

/-- A Python exception that escapes a modelled function. -/
inductive PyErr
  | nameError (missing : String)
deriving DecidableEq

/-- Module function `autocrop(im, requested_size, opts)` (backends.py lines
154–172): when `'autocrop' in opts`, brighten by 1.12, convert to RGB
(identity in this model), invert, take the bounding box of the non-zero
region, and crop the original image to it when non-empty; otherwise return
the image unchanged. `requested_size` (the geometry string at the call site)
is unused. -/
def autocrop (im : Img) (requested : String) (opts : Options) : Img :=
  if containsKey opts "autocrop" = true then
    let image := enhanceBrightness im
    let inverted_image := { image with pix := fun x y => chInvert (image.pix x y) }
    match getbbox inverted_image with
    | some bbox => crop im bbox
    | none => im
  else im

/-- `ROUND_VALID_OPTIONS` (backends.py lines 179–183). -/
def ROUND_VALID_OPTIONS : List String := ["round", "round-box", "round-wide"]

/-- `THUMBNAIL_PADDING_COLOUR` (backends.py line 185). -/
def THUMBNAIL_PADDING_COLOUR : Color := (255, 255, 255)

/-- Module function `fit(image, requested_size, opts)` (backends.py lines
188–204): when `'fit_y' in opts`, resize to height `requested_size[1]` with
width scaled by the aspect ratio; else when `'fit_x' in opts`, resize to
width `requested_size[0]` with height scaled; else return the image
unchanged. The source passes float-valued dimensions to `resize` (flagged in
the spec as a latent bug); the model floors them, which is exact whenever
they are whole. -/
def fit (image : Img) (requested : Nat × Nat) (opts : Options) : Img :=
  if containsKey opts "fit_y" = true then
    resize image (requested.2 * image.w / image.h, requested.2)
  else if containsKey opts "fit_x" = true then
    resize image (requested.1, requested.1 * image.h / image.w)
  else image

/-- Module function `invert(image, requested_size, opts)` (backends.py lines
207–212): photometric negation when `'invert' in opts`, identity otherwise. -/
def invert (image : Img) (requested : Nat × Nat) (opts : Options) : Img :=
  if containsKey opts "invert" = true then
    { image with pix := fun x y => chInvert (image.pix x y) }
  else image

/-- Module function `pad(im, requested_size, opts)` (backends.py lines
215–230): when `'pad' in opts` and the size differs from the request, paste
the image centred (integer-floor offsets) onto a white canvas of the
requested size. -/
def pad (im : Img) (requested : Nat × Nat) (opts : Options) : Img :=
  if containsKey opts "pad" = true ∧ (im.w, im.h) ≠ requested then
    let canvas := imageNew requested THUMBNAIL_PADDING_COLOUR
    let left := Int.fdiv ((requested.1 : Int) - (im.w : Int)) 2
    let top := Int.fdiv ((requested.2 : Int) - (im.h : Int)) 2
    paste canvas im left top
  else im

/-- Module function `round(im, requested_size, opts)` (backends.py lines
233–248): pick the first option key that is one of `ROUND_VALID_OPTIONS`
(the `IndexError` of an empty filter is caught, giving `mask_type = None`).
With no mask type the image is returned unchanged; with one, the source
evaluates `os.path.join(THUMBNAIL_ROUND_MASKS_PATH, ...)` where
`THUMBNAIL_ROUND_MASKS_PATH` is defined nowhere in the module, raising
`NameError`. -/
def round (im : Img) (requested : Nat × Nat) (opts : Options) : Except PyErr Img :=
  match opts.filter (fun kv => ROUND_VALID_OPTIONS.contains kv.1) with
  | [] => Except.ok im
  | _ :: _ => Except.error (PyErr.nameError "THUMBNAIL_ROUND_MASKS_PATH")

/-- The inner size `ltbx` computes before padding: the source compares the
float ratios `dest_x/dest_y > img_x/img_y` and floors `dest_y*img_ratio`
resp. `dest_x/img_ratio` with `int(...)`; the model performs the same exact
rational comparison by cross-multiplication (denominators are positive) and
the same floors with natural division. -/
def ltbx_inner_size (w h rw rh : Nat) : Nat × Nat :=
  if rw * h > w * rh then (rh * w / h, rh) else (rw, rw * h / w)

/-- Module function `ltbx(im, requested_size, opts)` (backends.py lines
252–269): when `'ltbx' in opts` and the size differs from the request, the
source resizes to the aspect-preserving inner size and then evaluates
`Image.new("RGB", requested_size, THUMBNAIL_PADDING_COLOR)`; the name
`THUMBNAIL_PADDING_COLOR` is defined nowhere in the module (the defined
constant is spelled `THUMBNAIL_PADDING_COLOUR`), so evaluation raises
`NameError` there. Otherwise the image is returned unchanged. -/
def ltbx (im : Img) (requested : Nat × Nat) (opts : Options) : Except PyErr Img :=
  if containsKey opts "ltbx" = true ∧ (im.w, im.h) ≠ requested then
    let _resized := resize im (ltbx_inner_size im.w im.h requested.1 requested.2)
    Except.error (PyErr.nameError "THUMBNAIL_PADDING_COLOR")
  else Except.ok im

/-! ### The orchestrator: `SafeSEOThumbnailBackend.get_thumbnail`

The collaborator calls the method makes are recorded in an effect trace, and
their outcomes (cache lookup result, physical existence, decode success) are
supplied by an environment record, so that temporal claims ("X is never
invoked on this path") become membership statements about the trace. -/

/-- A source file reference wrapped by `ImageFile(file_)`: its
storage-relative name and its sorl key. -/
structure Source where
  name : String
  key : String

/-- One collaborator call made by `get_thumbnail`, in source order. -/
inductive Effect
  | kvGet                  -- default.kvstore.get(thumbnail)
  | getImage               -- default.engine.get_image(source)
  | logException           -- logger.exception(e)
  | logWarn                -- logger.warn('Remote file ... does not exist')
  | getImageInfo           -- default.engine.get_image_info(source_image)
  | getImageSize           -- default.engine.get_image_size(source_image)
  | autocropCall           -- autocrop(source_image, geometry_string, options)
  | makedirs               -- os.makedirs(directory) guarded block
  | createThumbnail        -- self._create_thumbnail(...)
  | createAltResolutions   -- self._create_alternative_resolutions(...)
  | engineCleanup          -- default.engine.cleanup(source_image)
  | setMtimeOption         -- options['mtime'] = os.path.getmtime(...)
  | kvGetOrSet             -- default.kvstore.get_or_set(source)
  | kvSet                  -- default.kvstore.set(thumbnail, source)
deriving DecidableEq

/-- The value `get_thumbnail` returns. -/
inductive GTResult
  | dummyImage (geometry : String)    -- DummyImageFile(geometry_string)
  | noFile                            -- Python None
  | cachedHit (name : String)         -- the cached ImageFile from the kvstore
  | rendition (name : String)         -- the ImageFile built for the computed name
deriving DecidableEq

/-- The orchestrator's settings and collaborator outcomes for one request:
`settings.THUMBNAIL_DUMMY`, `settings.THUMBNAIL_PRESERVE_FORMAT`,
`self._get_format(source)`, `self.default_options`, the `(key, value)` pairs
of `self.extra_options` whose setting differs from the library default, the
result of `kvstore.get(thumbnail)` combined with `cached.exists()`
(`some e` = hit whose `exists()` is `e`; `none` = miss), `thumbnail.exists()`,
and the outcome of `engine.get_image` (`Except.error` models `IOError`). -/
structure Env where
  namer : NamerEnv
  dummy : Bool
  preserveFormat : Bool
  sourceFormat : String
  defaultOptions : Options
  extraOptions : Options
  cachedLookup : Option Bool
  thumbExists : Bool
  getImageResult : Except Unit Unit

/-- The option merging of `get_thumbnail` before the name is computed:
`setdefault('format', ...)` under `THUMBNAIL_PRESERVE_FORMAT`, then
`setdefault` of each backend default option, then `setdefault` of each extra
option whose setting differs from the library default. -/
def mergedOptions (env : Env) (options : Options) : Options :=
  let o1 := if env.preserveFormat then setdefault options "format" (.str env.sourceFormat)
            else options
  let o2 := env.defaultOptions.foldl (fun o kv => setdefault o kv.1 kv.2) o1
  env.extraOptions.foldl (fun o kv => setdefault o kv.1 kv.2) o2

/-- `SafeSEOThumbnailBackend.get_thumbnail` (backends.py lines 58–151),
returning the result value and the trace of collaborator calls:

* falsy `file_` → `DummyImageFile` under `THUMBNAIL_DUMMY`, else `None`;
* merge options, compute the destination name, look it up in the kvstore;
  a cached entry that `exists()` is returned immediately;
* when the thumbnail does not physically exist, decode; an `IOError` is
  caught and logged, returning the dummy (dummy mode) or the non-existent
  `thumbnail` descriptor (the early return skips the mtime/kvstore steps);
* on decode success run generation (`get_image_info`, `get_image_size`, the
  `autocrop` call when `options.get('autocrop', None)` is truthy, the guarded
  `makedirs`, `_create_thumbnail`, `_create_alternative_resolutions`,
  `engine.cleanup`);
* finally record `options['mtime']`, `kvstore.get_or_set(source)` and
  `kvstore.set(thumbnail, source)`, and return the descriptor. -/
def get_thumbnail (env : Env) (file? : Option Source) (geometry : String)
    (options : Options) : GTResult × List Effect :=
  match file? with
  | none => if env.dummy then (.dummyImage geometry, []) else (.noFile, [])
  | some source =>
    let opts := mergedOptions env options
    let name := get_thumbnail_filename env.namer source.name source.key geometry opts
    if env.cachedLookup = some true then
      (.cachedHit name, [.kvGet])
    else if env.thumbExists then
      (.rendition name, [.kvGet, .setMtimeOption, .kvGetOrSet, .kvSet])
    else
      match env.getImageResult with
      | .error _ =>
        if env.dummy then
          (.dummyImage geometry, [.kvGet, .getImage, .logException])
        else
          (.rendition name, [.kvGet, .getImage, .logException, .logWarn])
      | .ok _ =>
        (.rendition name,
          [Effect.kvGet, .getImage, .getImageInfo, .getImageSize]
            ++ (if truthyGet opts "autocrop" then [Effect.autocropCall] else [])
            ++ [Effect.makedirs, .createThumbnail, .createAltResolutions, .engineCleanup,
                .setMtimeOption, .kvGetOrSet, .kvSet])

/-! ### Claims about the orchestrator -/

/-- C1: whenever the rendition already physically exists in storage — either
the kvstore returns a cached entry whose `exists()` is true, or
`thumbnail.exists()` is true — `get_thumbnail` performs none of the
generation work (`get_image`, `get_image_info`, the `autocrop` call,
`_create_thumbnail`, `_create_alternative_resolutions`) and returns the
existing rendition descriptor (the cached entry or the descriptor for the
computed name). -/
theorem C1_existing_rendition_skips_generation
    (env : Env) (src : Source) (geometry : String) (options : Options)
    (h : env.cachedLookup = some true ∨ env.thumbExists = true) :
    (Effect.getImage ∉ (get_thumbnail env (some src) geometry options).2 ∧
     Effect.getImageInfo ∉ (get_thumbnail env (some src) geometry options).2 ∧
     Effect.autocropCall ∉ (get_thumbnail env (some src) geometry options).2 ∧
     Effect.createThumbnail ∉ (get_thumbnail env (some src) geometry options).2 ∧
     Effect.createAltResolutions ∉ (get_thumbnail env (some src) geometry options).2) ∧
    ((get_thumbnail env (some src) geometry options).1 =
       GTResult.cachedHit
         (get_thumbnail_filename env.namer src.name src.key geometry
           (mergedOptions env options)) ∨
     (get_thumbnail env (some src) geometry options).1 =
       GTResult.rendition
         (get_thumbnail_filename env.namer src.name src.key geometry
           (mergedOptions env options))) := by
  by_cases hc : env.cachedLookup = some true
  · simp [get_thumbnail, hc]
  · rcases h with h | h
    · exact absurd h hc
    · simp [get_thumbnail, hc, h]

/-- A concrete environment whose kvstore lookup hits an existing rendition. -/
def c1Env : Env where
  namer := ⟨"images/", fun _ _ _ => "0123456789abcdef", fun _ => "ser", id, fun _ => some "jpg"⟩
  dummy := false
  preserveFormat := false
  sourceFormat := "JPEG"
  defaultOptions := []
  extraOptions := []
  cachedLookup := some true
  thumbExists := false
  getImageResult := .ok ()

/-- Witness for C1 at a concrete request with a cache hit. -/
theorem C1_existing_rendition_skips_generation_witness :
    (Effect.getImage ∉ (get_thumbnail c1Env (some ⟨"a/b.jpg", "k"⟩) "100x100" []).2 ∧
     Effect.getImageInfo ∉ (get_thumbnail c1Env (some ⟨"a/b.jpg", "k"⟩) "100x100" []).2 ∧
     Effect.autocropCall ∉ (get_thumbnail c1Env (some ⟨"a/b.jpg", "k"⟩) "100x100" []).2 ∧
     Effect.createThumbnail ∉ (get_thumbnail c1Env (some ⟨"a/b.jpg", "k"⟩) "100x100" []).2 ∧
     Effect.createAltResolutions ∉ (get_thumbnail c1Env (some ⟨"a/b.jpg", "k"⟩) "100x100" []).2) ∧
    ((get_thumbnail c1Env (some ⟨"a/b.jpg", "k"⟩) "100x100" []).1 =
       GTResult.cachedHit
         (get_thumbnail_filename c1Env.namer "a/b.jpg" "k" "100x100"
           (mergedOptions c1Env [])) ∨
     (get_thumbnail c1Env (some ⟨"a/b.jpg", "k"⟩) "100x100" []).1 =
       GTResult.rendition
         (get_thumbnail_filename c1Env.namer "a/b.jpg" "k" "100x100"
           (mergedOptions c1Env []))) :=
  C1_existing_rendition_skips_generation c1Env ⟨"a/b.jpg", "k"⟩ "100x100" [] (Or.inl rfl)

/-- C3: when the fast paths miss (no usable cache entry, thumbnail not in
storage) and the engine's decode raises `IOError`, `get_thumbnail` does not
propagate: it logs the exception and returns the dummy placeholder when
`THUMBNAIL_DUMMY` is on, otherwise the well-formed but non-existent rendition
descriptor for the computed name (nothing was written: `_create_thumbnail`
never ran). -/
theorem C3_decode_failure_never_propagates
    (env : Env) (src : Source) (geometry : String) (options : Options)
    (hc : env.cachedLookup ≠ some true) (ht : env.thumbExists = false)
    (hd : env.getImageResult = .error ()) :
    (get_thumbnail env (some src) geometry options).1 =
      (if env.dummy then GTResult.dummyImage geometry
       else GTResult.rendition
         (get_thumbnail_filename env.namer src.name src.key geometry
           (mergedOptions env options))) ∧
    Effect.logException ∈ (get_thumbnail env (some src) geometry options).2 ∧
    Effect.createThumbnail ∉ (get_thumbnail env (some src) geometry options).2 := by
  cases hdum : env.dummy <;> simp [get_thumbnail, hc, ht, hd, hdum]

/-- A concrete environment whose decode fails with dummy mode on. -/
def c3Env : Env where
  namer := ⟨"images/", fun _ _ _ => "0123456789abcdef", fun _ => "ser", id, fun _ => some "jpg"⟩
  dummy := true
  preserveFormat := false
  sourceFormat := "JPEG"
  defaultOptions := []
  extraOptions := []
  cachedLookup := none
  thumbExists := false
  getImageResult := .error ()

/-- Witness for C3 at a concrete failing decode. -/
theorem C3_decode_failure_never_propagates_witness :
    (get_thumbnail c3Env (some ⟨"a/b.jpg", "k"⟩) "100x100" []).1 =
      (if c3Env.dummy then GTResult.dummyImage "100x100"
       else GTResult.rendition
         (get_thumbnail_filename c3Env.namer "a/b.jpg" "k" "100x100"
           (mergedOptions c3Env []))) ∧
    Effect.logException ∈ (get_thumbnail c3Env (some ⟨"a/b.jpg", "k"⟩) "100x100" []).2 ∧
    Effect.createThumbnail ∉ (get_thumbnail c3Env (some ⟨"a/b.jpg", "k"⟩) "100x100" []).2 :=
  C3_decode_failure_never_propagates c3Env ⟨"a/b.jpg", "k"⟩ "100x100" []
    (by decide) rfl rfl

/-- C4: with a falsy file reference, `get_thumbnail` returns the dummy
placeholder when `THUMBNAIL_DUMMY` is on and `None` otherwise, touching no
collaborator (empty effect trace) and raising nothing (the modelled function
is total and returns a plain value on this path). -/
theorem C4_missing_file_graceful
    (env : Env) (geometry : String) (options : Options) :
    get_thumbnail env none geometry options =
      ((if env.dummy then GTResult.dummyImage geometry else GTResult.noFile), []) := by
  cases hdum : env.dummy <;> simp [get_thumbnail, hdum]

/-- C10: on the decode-failure path with dummy mode off, the trace is exactly
`kvstore.get`, `engine.get_image`, and the two log calls: in particular
`kvstore.get_or_set(source)`, `kvstore.set(thumbnail, source)` and the
`options['mtime']` recording never execute, so the failed generation leaves
no rendition→source association behind. -/
theorem C10_failed_generation_leaves_registry_untouched
    (env : Env) (src : Source) (geometry : String) (options : Options)
    (hc : env.cachedLookup ≠ some true) (ht : env.thumbExists = false)
    (hd : env.getImageResult = .error ()) (hdum : env.dummy = false) :
    (get_thumbnail env (some src) geometry options).2 =
      [.kvGet, .getImage, .logException, .logWarn] ∧
    Effect.kvGetOrSet ∉ (get_thumbnail env (some src) geometry options).2 ∧
    Effect.kvSet ∉ (get_thumbnail env (some src) geometry options).2 ∧
    Effect.setMtimeOption ∉ (get_thumbnail env (some src) geometry options).2 := by
  simp [get_thumbnail, hc, ht, hd, hdum]

/-- A concrete environment whose decode fails with dummy mode off. -/
def c10Env : Env where
  namer := ⟨"images/", fun _ _ _ => "0123456789abcdef", fun _ => "ser", id, fun _ => some "jpg"⟩
  dummy := false
  preserveFormat := false
  sourceFormat := "JPEG"
  defaultOptions := []
  extraOptions := []
  cachedLookup := none
  thumbExists := false
  getImageResult := .error ()

/-- Witness for C10 at a concrete failing decode with dummy mode off. -/
theorem C10_failed_generation_leaves_registry_untouched_witness :
    (get_thumbnail c10Env (some ⟨"a/b.jpg", "k"⟩) "100x100" []).2 =
      [.kvGet, .getImage, .logException, .logWarn] ∧
    Effect.kvGetOrSet ∉ (get_thumbnail c10Env (some ⟨"a/b.jpg", "k"⟩) "100x100" []).2 ∧
    Effect.kvSet ∉ (get_thumbnail c10Env (some ⟨"a/b.jpg", "k"⟩) "100x100" []).2 ∧
    Effect.setMtimeOption ∉ (get_thumbnail c10Env (some ⟨"a/b.jpg", "k"⟩) "100x100" []).2 :=
  C10_failed_generation_leaves_registry_untouched c10Env ⟨"a/b.jpg", "k"⟩ "100x100" []
    (by decide) rfl rfl rfl

/-! ### Claims about the path namer -/

theorem insertBeforeLast_concat (l : List α) (x a : α) :
    insertBeforeLast (l ++ [x]) a = l ++ [a, x] := by
  induction l with
  | nil => rfl
  | cons y ys ih =>
    cases ys with
    | nil => rfl
    | cons z zs =>
      show y :: insertBeforeLast ((z :: zs) ++ [x]) a = y :: ((z :: zs) ++ [a, x])
      rw [ih]

theorem insert3_concat (l : List α) (x a b c : α) :
    insertBeforeLast (insertBeforeLast (insertBeforeLast (l ++ [x]) a) b) c
      = l ++ [a, b, c, x] := by
  rw [insertBeforeLast_concat, show l ++ [a, x] = (l ++ [a]) ++ [x] by simp,
      insertBeforeLast_concat, show (l ++ [a]) ++ [b, x] = ((l ++ [a]) ++ [b]) ++ [x] by simp,
      insertBeforeLast_concat]
  simp

/-- The segment list of the namer, in closed form, when the source name
splits as `dirs ++ [fname]` and the format maps to an extension. -/
theorem thumbnail_segments_eq (env : NamerEnv)
    (sourceName sourceKey geometry : String) (options : Options)
    (dirs : List String) (fname fmt ext : String)
    (hsplit : pySplitOn sourceName '/' = dirs ++ [fname])
    (hfmt : lookupKey options "format" = some (.str fmt))
    (hext : env.extensions fmt = some ext) :
    thumbnail_segments env sourceName sourceKey geometry options =
      dirs ++ [geometry,
               strTake (env.tokey sourceKey geometry (env.serialize options)) 2,
               strTake (strDrop (env.tokey sourceKey geometry (env.serialize options)) 2) 2,
               env.slugify (String.intercalate "." (pySplitOn fname '.').dropLast)
                 ++ "." ++ ext] := by
  have hins := insert3_concat dirs fname geometry
    (strTake (env.tokey sourceKey geometry (env.serialize options)) 2)
    (strTake (strDrop (env.tokey sourceKey geometry (env.serialize options)) 2) 2)
  have hshape : dirs ++ [geometry,
      strTake (env.tokey sourceKey geometry (env.serialize options)) 2,
      strTake (strDrop (env.tokey sourceKey geometry (env.serialize options)) 2) 2,
      fname]
      = (dirs ++ [geometry,
          strTake (env.tokey sourceKey geometry (env.serialize options)) 2,
          strTake (strDrop (env.tokey sourceKey geometry (env.serialize options)) 2) 2])
        ++ [fname] := by simp
  simp only [thumbnail_segments, hsplit, hins, hshape, List.getLastD_concat,
    List.dropLast_concat, hfmt, hext]
  simp

/-- `addPfxUnlessPresent` output always starts with the prefix. -/
theorem pyStartsWith_addPfx (p s : String) :
    pyStartsWith (addPfxUnlessPresent p s) p = true := by
  unfold addPfxUnlessPresent
  by_cases h : pyStartsWith s p = true
  · rw [if_pos h]
    exact h
  · simp only [h, Bool.false_eq_true, if_false]
    unfold pyStartsWith
    rw [String.data_append, List.isPrefixOf_iff_prefix]
    exact List.prefix_append _ _

/-- Prepending `p` turns a `p`-test into a `p ++ p`-test. -/
theorem pyStartsWith_append_cancel (p s : String) :
    pyStartsWith (p ++ s) (p ++ p) = pyStartsWith s p := by
  unfold pyStartsWith
  rw [String.data_append, String.data_append]
  by_cases h : p.data <+: s.data
  · rw [List.isPrefixOf_iff_prefix.mpr h,
      List.isPrefixOf_iff_prefix.mpr ((List.prefix_append_right_inj _).mpr h)]
  · have e1 : (p.data ++ p.data).isPrefixOf (p.data ++ s.data) = false := by
      rw [Bool.eq_false_iff]
      intro hb
      exact h ((List.prefix_append_right_inj _).mp (List.isPrefixOf_iff_prefix.mp hb))
    have e2 : p.data.isPrefixOf s.data = false := by
      rw [Bool.eq_false_iff]
      intro hb
      exact h (List.isPrefixOf_iff_prefix.mp hb)
    rw [e1, e2]

/-- Starting with `p ++ p` implies starting with `p`. -/
theorem pyStartsWith_of_double (p s : String)
    (h : pyStartsWith s (p ++ p) = true) : pyStartsWith s p = true := by
  unfold pyStartsWith at h ⊢
  rw [List.isPrefixOf_iff_prefix] at h ⊢
  refine List.IsPrefix.trans ?_ h
  rw [String.data_append]
  exact List.prefix_append _ _

/-- C2: under a successful format→extension mapping, the namer's output is
the layout `<prefix>/<original-dir-segments>/<geometry>/<hash[0:2]>/<hash[2:4]>/<slugified-stem>.<ext>`:
the storage-relative directory segments, the geometry string, the first two
and next two characters of `tokey(source.key, geometry, serialize(options))`
as two directory segments, and the slugified stem with the mapped extension,
joined and prefixed. -/
theorem C2_filename_layout (env : NamerEnv)
    (sourceName sourceKey geometry : String) (options : Options)
    (dirs : List String) (fname fmt ext : String)
    (hsplit : pySplitOn sourceName '/' = dirs ++ [fname])
    (hfmt : lookupKey options "format" = some (.str fmt))
    (hext : env.extensions fmt = some ext) :
    get_thumbnail_filename env sourceName sourceKey geometry options =
      addPfxUnlessPresent env.pfx
        (String.intercalate "/"
          (dirs ++ [geometry,
                    strTake (env.tokey sourceKey geometry (env.serialize options)) 2,
                    strTake (strDrop (env.tokey sourceKey geometry (env.serialize options)) 2) 2,
                    env.slugify (String.intercalate "." (pySplitOn fname '.').dropLast)
                      ++ "." ++ ext])) ∧
    pyStartsWith (get_thumbnail_filename env sourceName sourceKey geometry options)
      env.pfx = true := by
  constructor
  · unfold get_thumbnail_filename joined_thumbnail_path
    rw [thumbnail_segments_eq env sourceName sourceKey geometry options dirs fname fmt ext
      hsplit hfmt hext]
  · exact pyStartsWith_addPfx _ _

/-- Witness for C2: a concrete source path `a/b/pic name.jpg` with format
`JPEG`, a slugifier replacing spaces with hyphens modelled as a concrete
function, and a concrete 16-character key. -/
theorem C2_filename_layout_witness :
    get_thumbnail_filename
        ⟨"images/", fun _ _ _ => "0123456789abcdef", fun _ => "ser",
         fun _ => "pic-name", fun f => if f = "JPEG" then some "jpg" else none⟩
        "a/b/pic name.jpg" "k" "300x200" [("format", PyVal.str "JPEG")] =
      addPfxUnlessPresent "images/"
        (String.intercalate "/"
          (["a", "b"] ++ ["300x200",
            strTake ((fun (_ _ _ : String) => "0123456789abcdef") "k" "300x200" "ser") 2,
            strTake (strDrop ((fun (_ _ _ : String) => "0123456789abcdef") "k" "300x200" "ser") 2) 2,
            (fun (_ : String) => "pic-name")
                (String.intercalate "." (pySplitOn "pic name.jpg" '.').dropLast)
              ++ "." ++ "jpg"])) ∧
    pyStartsWith
      (get_thumbnail_filename
        ⟨"images/", fun _ _ _ => "0123456789abcdef", fun _ => "ser",
         fun _ => "pic-name", fun f => if f = "JPEG" then some "jpg" else none⟩
        "a/b/pic name.jpg" "k" "300x200" [("format", PyVal.str "JPEG")])
      "images/" = true :=
  C2_filename_layout
    ⟨"images/", fun _ _ _ => "0123456789abcdef", fun _ => "ser",
     fun _ => "pic-name", fun f => if f = "JPEG" then some "jpg" else none⟩
    "a/b/pic name.jpg" "k" "300x200" [("format", PyVal.str "JPEG")]
    ["a", "b"] "pic name.jpg" "JPEG" "jpg" (by decide) (by decide) (by decide)

/-- C5 counterexample: the claim says the returned path starts with the
configured prefix exactly once (never double-prefixed), but for a source
whose storage-relative path itself begins with a repeated prefix the already-
prefixed path is returned unchanged and starts with the prefix twice. -/
theorem C5_counterexample :
    get_thumbnail_filename
        ⟨"images/", fun _ _ _ => "0123456789abcdef", fun _ => "ser", id, fun _ => none⟩
        "images/images/pic.jpg" "k" "300x200" [] =
      "images/images/300x200/01/23/pic.jpg" ∧
    pyStartsWith
      (get_thumbnail_filename
        ⟨"images/", fun _ _ _ => "0123456789abcdef", fun _ => "ser", id, fun _ => none⟩
        "images/images/pic.jpg" "k" "300x200" [])
      ("images/" ++ "images/") = true := by
  constructor <;> decide

/-- C5 amended: the returned path always starts with the configured prefix;
the namer returns the joined path unchanged or prepends the prefix, and the
prepending itself never introduces a second prefix occurrence — the output
starts with the doubled prefix exactly when the joined path already did. -/
theorem C5_prefixing_idempotent (env : NamerEnv)
    (sourceName sourceKey geometry : String) (options : Options) :
    pyStartsWith (get_thumbnail_filename env sourceName sourceKey geometry options)
      env.pfx = true ∧
    pyStartsWith (get_thumbnail_filename env sourceName sourceKey geometry options)
        (env.pfx ++ env.pfx)
      = pyStartsWith (joined_thumbnail_path env sourceName sourceKey geometry options)
        (env.pfx ++ env.pfx) ∧
    (get_thumbnail_filename env sourceName sourceKey geometry options
        = joined_thumbnail_path env sourceName sourceKey geometry options ∨
     get_thumbnail_filename env sourceName sourceKey geometry options
        = env.pfx ++ joined_thumbnail_path env sourceName sourceKey geometry options) := by
  refine ⟨pyStartsWith_addPfx _ _, ?_, ?_⟩
  · unfold get_thumbnail_filename addPfxUnlessPresent
    by_cases h : pyStartsWith (joined_thumbnail_path env sourceName sourceKey geometry options)
        env.pfx = true
    · simp [h]
    · simp only [h, Bool.false_eq_true, if_false]
      rw [pyStartsWith_append_cancel]
      have h1 : pyStartsWith (joined_thumbnail_path env sourceName sourceKey geometry options)
          env.pfx = false := Bool.eq_false_iff.mpr h
      have h2 : pyStartsWith (joined_thumbnail_path env sourceName sourceKey geometry options)
          (env.pfx ++ env.pfx) = false := by
        rw [Bool.eq_false_iff]
        intro hb
        exact h (pyStartsWith_of_double _ _ hb)
      rw [h1, h2]
  · unfold get_thumbnail_filename addPfxUnlessPresent
    by_cases h : pyStartsWith (joined_thumbnail_path env sourceName sourceKey geometry options)
        env.pfx = true
    · exact Or.inl (by simp [h])
    · exact Or.inr (by simp [h])

/-- C9 counterexample: the claim says an empty slugified stem makes the namer
fall back to the key hash as the filename, but the source has no such
fallback: with a stem whose slugification is empty (Django's `slugify` maps
`"???"` to `""`) and a mapped format, the filename component becomes just
`".jpg"` — an empty stem, not the key `"abcdef0123456789"`. -/
theorem C9_counterexample :
    get_thumbnail_filename
        ⟨"images/", fun _ _ _ => "abcdef0123456789", fun _ => "ser",
         fun _ => "", fun f => if f = "JPEG" then some "jpg" else none⟩
        "photos/???.jpg" "k" "300x200" [("format", PyVal.str "JPEG")] =
      "images/photos/300x200/ab/cd/.jpg" ∧
    (thumbnail_segments
        ⟨"images/", fun _ _ _ => "abcdef0123456789", fun _ => "ser",
         fun _ => "", fun f => if f = "JPEG" then some "jpg" else none⟩
        "photos/???.jpg" "k" "300x200" [("format", PyVal.str "JPEG")]).getLastD ""
      = ".jpg" ∧
    (".jpg" : String) ≠ "abcdef0123456789" := by
  refine ⟨by decide, by decide, by decide⟩

/-- C9 amended: when the filename stem slugifies to the empty string and the
format maps to an extension, the computed filename component is `"." ++ ext`
— an empty stem with the extension; the namer never substitutes the key
hash (its only fallback, on a failed format lookup, keeps the original
filename). -/
theorem C9_empty_slug_keeps_dot_extension (env : NamerEnv)
    (sourceName sourceKey geometry : String) (options : Options)
    (dirs : List String) (fname fmt ext : String)
    (hsplit : pySplitOn sourceName '/' = dirs ++ [fname])
    (hfmt : lookupKey options "format" = some (.str fmt))
    (hext : env.extensions fmt = some ext)
    (hslug : env.slugify (String.intercalate "." (pySplitOn fname '.').dropLast) = "") :
    thumbnail_segments env sourceName sourceKey geometry options =
      dirs ++ [geometry,
               strTake (env.tokey sourceKey geometry (env.serialize options)) 2,
               strTake (strDrop (env.tokey sourceKey geometry (env.serialize options)) 2) 2,
               "." ++ ext] := by
  rw [thumbnail_segments_eq env sourceName sourceKey geometry options dirs fname fmt ext
    hsplit hfmt hext, hslug]
  simp

/-- Witness for the amended C9 at the concrete `photos/???.jpg` input with a
slugifier sending everything to the empty string. -/
theorem C9_empty_slug_keeps_dot_extension_witness :
    thumbnail_segments
        ⟨"images/", fun _ _ _ => "abcdef0123456789", fun _ => "ser",
         fun _ => "", fun f => if f = "JPEG" then some "jpg" else none⟩
        "photos/???.jpg" "k" "300x200" [("format", PyVal.str "JPEG")] =
      ["photos"] ++ ["300x200",
        strTake ((fun (_ _ _ : String) => "abcdef0123456789") "k" "300x200" "ser") 2,
        strTake (strDrop ((fun (_ _ _ : String) => "abcdef0123456789") "k" "300x200" "ser") 2) 2,
        "." ++ "jpg"] :=
  C9_empty_slug_keeps_dot_extension
    ⟨"images/", fun _ _ _ => "abcdef0123456789", fun _ => "ser",
     fun _ => "", fun f => if f = "JPEG" then some "jpg" else none⟩
    "photos/???.jpg" "k" "300x200" [("format", PyVal.str "JPEG")]
    ["photos"] "???.jpg" "JPEG" "jpg" (by decide) (by decide) (by decide) (by decide)

/-! ### Claims about the transform library -/

/-- C6: with `'pad'` among the option keys and a size differing from the
request, `pad` returns a canvas of exactly the requested size whose window
starting at `left = floor((reqw - w)/2)`, `top = floor((reqh - h)/2)` holds
the original image and whose every other pixel is the padding colour
`(255, 255, 255)`. -/
theorem C6_pad_centers (im : Img) (reqw reqh : Nat) (opts : Options)
    (hpad : containsKey opts "pad" = true)
    (hne : (im.w, im.h) ≠ (reqw, reqh)) :
    (pad im (reqw, reqh) opts).w = reqw ∧
    (pad im (reqw, reqh) opts).h = reqh ∧
    (∀ x y : Int,
      (Int.fdiv ((reqw : Int) - (im.w : Int)) 2 ≤ x ∧
       x < Int.fdiv ((reqw : Int) - (im.w : Int)) 2 + (im.w : Int) ∧
       Int.fdiv ((reqh : Int) - (im.h : Int)) 2 ≤ y ∧
       y < Int.fdiv ((reqh : Int) - (im.h : Int)) 2 + (im.h : Int)) →
      (pad im (reqw, reqh) opts).pix x y =
        im.pix (x - Int.fdiv ((reqw : Int) - (im.w : Int)) 2)
               (y - Int.fdiv ((reqh : Int) - (im.h : Int)) 2)) ∧
    (∀ x y : Int,
      ¬(Int.fdiv ((reqw : Int) - (im.w : Int)) 2 ≤ x ∧
        x < Int.fdiv ((reqw : Int) - (im.w : Int)) 2 + (im.w : Int) ∧
        Int.fdiv ((reqh : Int) - (im.h : Int)) 2 ≤ y ∧
        y < Int.fdiv ((reqh : Int) - (im.h : Int)) 2 + (im.h : Int)) →
      (pad im (reqw, reqh) opts).pix x y = (255, 255, 255)) := by
  unfold pad
  rw [if_pos ⟨hpad, hne⟩]
  refine ⟨rfl, rfl, ?_, ?_⟩
  · intro x y hxy
    show (if _ ∧ _ ∧ _ ∧ _ then _ else _) = _
    rw [if_pos hxy]
  · intro x y hxy
    show (if _ ∧ _ ∧ _ ∧ _ then _ else _) = _
    rw [if_neg hxy]
    rfl

/-- The 100×50 image of the C6 witness. -/
def c6Im : Img := ⟨100, 50, fun _ _ => (1, 2, 3)⟩

/-- Witness for C6: padding the 100×50 image into 200×200 places it at
`left = 50`, `top = 75` on a white canvas. -/
theorem C6_pad_centers_witness :
    (Int.fdiv ((200 : Int) - (100 : Int)) 2 = 50 ∧
     Int.fdiv ((200 : Int) - (50 : Int)) 2 = 75) ∧
    ((pad c6Im (200, 200) [("pad", PyVal.bool true)]).w = 200 ∧
     (pad c6Im (200, 200) [("pad", PyVal.bool true)]).h = 200 ∧
     (∀ x y : Int,
       (Int.fdiv ((200 : Int) - (c6Im.w : Int)) 2 ≤ x ∧
        x < Int.fdiv ((200 : Int) - (c6Im.w : Int)) 2 + (c6Im.w : Int) ∧
        Int.fdiv ((200 : Int) - (c6Im.h : Int)) 2 ≤ y ∧
        y < Int.fdiv ((200 : Int) - (c6Im.h : Int)) 2 + (c6Im.h : Int)) →
       (pad c6Im (200, 200) [("pad", PyVal.bool true)]).pix x y =
         c6Im.pix (x - Int.fdiv ((200 : Int) - (c6Im.w : Int)) 2)
                  (y - Int.fdiv ((200 : Int) - (c6Im.h : Int)) 2)) ∧
     (∀ x y : Int,
       ¬(Int.fdiv ((200 : Int) - (c6Im.w : Int)) 2 ≤ x ∧
         x < Int.fdiv ((200 : Int) - (c6Im.w : Int)) 2 + (c6Im.w : Int) ∧
         Int.fdiv ((200 : Int) - (c6Im.h : Int)) 2 ≤ y ∧
         y < Int.fdiv ((200 : Int) - (c6Im.h : Int)) 2 + (c6Im.h : Int)) →
       (pad c6Im (200, 200) [("pad", PyVal.bool true)]).pix x y = (255, 255, 255))) :=
  ⟨⟨by decide, by decide⟩,
   C6_pad_centers c6Im 200 200 [("pad", PyVal.bool true)] (by decide) (by decide)⟩

/-- C7: the claim describes `ltbx` letterboxing a 400×100 image into 200×200
as an inner 200×50 image centred at `top = 75`, but the source cannot reach
that result: after computing the aspect-preserving inner size (which is
indeed 200×50, with centring offset 75), it evaluates the undefined name
`THUMBNAIL_PADDING_COLOR` (the module defines `THUMBNAIL_PADDING_COLOUR`)
and raises `NameError` — a source defect the spec itself flags. -/
theorem C7_ltbx_raises_name_error :
    ltbx ⟨400, 100, fun _ _ => (9, 9, 9)⟩ (200, 200) [("ltbx", PyVal.bool true)]
      = Except.error (PyErr.nameError "THUMBNAIL_PADDING_COLOR") ∧
    ltbx_inner_size 400 100 200 200 = (200, 50) ∧
    Int.fdiv ((200 : Int) - (50 : Int)) 2 = 75 := by
  refine ⟨?_, by decide, by decide⟩
  rfl

/-- The 1×1 black image of the C8 counterexample. -/
def c8Im : Img := ⟨1, 1, fun _ _ => (0, 0, 0)⟩

/-- C8 counterexample: the claim says a trigger key that is present but
falsy does not activate the transform, and that otherwise the transform is
an identity passthrough; but the source tests membership (`'invert' in
opts`), so `{'invert': False}` — present, not truthy — still inverts the
image: the black pixel becomes white. -/
theorem C8_counterexample :
    containsKey [("invert", PyVal.bool false)] "invert" = true ∧
    truthyGet [("invert", PyVal.bool false)] "invert" = false ∧
    (invert c8Im (1, 1) [("invert", PyVal.bool false)]).pix 0 0 = (255, 255, 255) ∧
    c8Im.pix 0 0 = (0, 0, 0) := by
  refine ⟨by decide, by decide, ?_, rfl⟩
  show chInvert (c8Im.pix 0 0) = (255, 255, 255)
  decide

/-- C8 amended: each transform is governed by its own declared trigger keys
alone, tested by membership: when none of the transform's own trigger keys
is present — no matter which other transforms' keys are — it returns its
input raster unchanged, and when one of its trigger keys is present, even
with a falsy value, the transform applies its operation (for `pad` and
`ltbx`, additionally only when the size differs from the request; for
`round` and `ltbx`, "applies" reaches the `NameError` of the undefined
module constant). The conjuncts characterize every transform on every
combination of its own trigger keys. -/
theorem C8_trigger_key_presence_governs_each_transform
    (im : Img) (requested : Nat × Nat) (geometry : String) (opts : Options) :
    (containsKey opts "fit_x" = false → containsKey opts "fit_y" = false →
       fit im requested opts = im) ∧
    (containsKey opts "fit_y" = true →
       fit im requested opts = resize im (requested.2 * im.w / im.h, requested.2)) ∧
    (containsKey opts "fit_y" = false → containsKey opts "fit_x" = true →
       fit im requested opts = resize im (requested.1, requested.1 * im.h / im.w)) ∧
    (containsKey opts "invert" = false → invert im requested opts = im) ∧
    (containsKey opts "invert" = true →
       invert im requested opts = { im with pix := fun x y => chInvert (im.pix x y) }) ∧
    (containsKey opts "pad" = false → pad im requested opts = im) ∧
    (containsKey opts "pad" = true → (im.w, im.h) ≠ requested →
       pad im requested opts =
         paste (imageNew requested THUMBNAIL_PADDING_COLOUR) im
           (Int.fdiv ((requested.1 : Int) - (im.w : Int)) 2)
           (Int.fdiv ((requested.2 : Int) - (im.h : Int)) 2)) ∧
    (containsKey opts "pad" = true → (im.w, im.h) = requested →
       pad im requested opts = im) ∧
    (containsKey opts "ltbx" = false → ltbx im requested opts = Except.ok im) ∧
    (containsKey opts "ltbx" = true → (im.w, im.h) ≠ requested →
       ltbx im requested opts = Except.error (PyErr.nameError "THUMBNAIL_PADDING_COLOR")) ∧
    (containsKey opts "ltbx" = true → (im.w, im.h) = requested →
       ltbx im requested opts = Except.ok im) ∧
    (containsKey opts "round" = false → containsKey opts "round-box" = false →
       containsKey opts "round-wide" = false →
       CustomSorl.round im requested opts = Except.ok im) ∧
    ((containsKey opts "round" = true ∨ containsKey opts "round-box" = true ∨
        containsKey opts "round-wide" = true) →
       CustomSorl.round im requested opts
         = Except.error (PyErr.nameError "THUMBNAIL_ROUND_MASKS_PATH")) ∧
    (containsKey opts "autocrop" = false → autocrop im geometry opts = im) ∧
    (containsKey opts "autocrop" = true →
       autocrop im geometry opts =
         (match getbbox { enhanceBrightness im with
             pix := fun x y => chInvert ((enhanceBrightness im).pix x y) } with
          | some bbox => crop im bbox
          | none => im)) := by
  have nkey : ∀ (k : String), containsKey opts k = false →
      ∀ kv ∈ opts, kv.1 ≠ k := by
    intro k h kv hkv he
    unfold containsKey at h
    rw [List.any_eq_false] at h
    exact h kv hkv (by simp [he])
  have memkey : ∀ (k : String), containsKey opts k = true →
      ∃ kv ∈ opts, kv.1 = k := by
    intro k h
    unfold containsKey at h
    rw [List.any_eq_true] at h
    obtain ⟨kv, hkv, he⟩ := h
    exact ⟨kv, hkv, of_decide_eq_true he⟩
  refine ⟨?_, ?_, ?_, ?_, ?_, ?_, ?_, ?_, ?_, ?_, ?_, ?_, ?_, ?_, ?_⟩
  · intro hx hy
    simp [fit, hx, hy]
  · intro hy
    simp [fit, hy]
  · intro hy hx
    simp [fit, hy, hx]
  · intro h
    simp [invert, h]
  · intro h
    simp [invert, h]
  · intro h
    simp [pad, h]
  · intro h hne
    unfold pad
    rw [if_pos ⟨h, hne⟩]
  · intro h heq
    unfold pad
    rw [if_neg (fun hc => hc.2 heq)]
  · intro h
    simp [ltbx, h]
  · intro h hne
    unfold ltbx
    rw [if_pos ⟨h, hne⟩]
  · intro h heq
    unfold ltbx
    rw [if_neg (fun hc => hc.2 heq)]
  · intro h7 h8 h9
    have hfilter : opts.filter (fun kv => ROUND_VALID_OPTIONS.contains kv.1) = [] := by
      rw [List.filter_eq_nil_iff]
      intro kv hkv
      simp [ROUND_VALID_OPTIONS, nkey "round" h7 kv hkv, nkey "round-box" h8 kv hkv,
        nkey "round-wide" h9 kv hkv]
    unfold CustomSorl.round
    rw [hfilter]
  · intro hor
    have hmem : ∃ kv ∈ opts, ROUND_VALID_OPTIONS.contains kv.1 = true := by
      rcases hor with h | h | h <;>
        · obtain ⟨kv, hkv, he⟩ := memkey _ h
          exact ⟨kv, hkv, by simp [ROUND_VALID_OPTIONS, he]⟩
    obtain ⟨kv, hkv, hp⟩ := hmem
    cases hf : opts.filter (fun kv => ROUND_VALID_OPTIONS.contains kv.1) with
    | nil =>
      have : kv ∈ opts.filter (fun kv => ROUND_VALID_OPTIONS.contains kv.1) :=
        List.mem_filter.mpr ⟨hkv, hp⟩
      rw [hf] at this
      exact absurd this (List.not_mem_nil kv)
    | cons a l =>
      unfold CustomSorl.round
      rw [hf]
  · intro h
    simp [autocrop, h]
  · intro h
    simp [autocrop, h]

/-- Witness for the amended C8: each transform stays inert when only other
transforms' trigger keys are present (`fit` under `{'pad': True}`, `pad`
under `{'invert': True}`, `round` under `{'fit_x': True}`, …), and a falsy
trigger value still activates (`invert` under `{'invert': False}`). -/
theorem C8_trigger_key_presence_governs_each_transform_witness :
    fit ⟨2, 3, fun _ _ => (7, 8, 9)⟩ (10, 10) [("pad", PyVal.bool true)]
      = ⟨2, 3, fun _ _ => (7, 8, 9)⟩ ∧
    invert ⟨2, 3, fun _ _ => (7, 8, 9)⟩ (10, 10) [("ltbx", PyVal.bool true)]
      = ⟨2, 3, fun _ _ => (7, 8, 9)⟩ ∧
    pad ⟨2, 3, fun _ _ => (7, 8, 9)⟩ (10, 10) [("invert", PyVal.bool true)]
      = ⟨2, 3, fun _ _ => (7, 8, 9)⟩ ∧
    ltbx ⟨2, 3, fun _ _ => (7, 8, 9)⟩ (10, 10) [("round", PyVal.bool true)]
      = Except.ok ⟨2, 3, fun _ _ => (7, 8, 9)⟩ ∧
    CustomSorl.round ⟨2, 3, fun _ _ => (7, 8, 9)⟩ (10, 10) [("fit_x", PyVal.bool true)]
      = Except.ok ⟨2, 3, fun _ _ => (7, 8, 9)⟩ ∧
    autocrop ⟨2, 3, fun _ _ => (7, 8, 9)⟩ "100x100" [("pad", PyVal.bool true)]
      = ⟨2, 3, fun _ _ => (7, 8, 9)⟩ ∧
    invert ⟨2, 3, fun _ _ => (7, 8, 9)⟩ (10, 10) [("invert", PyVal.bool false)]
      = { (⟨2, 3, fun _ _ => (7, 8, 9)⟩ : Img) with
          pix := fun x y => chInvert ((⟨2, 3, fun _ _ => (7, 8, 9)⟩ : Img).pix x y) } := by
  refine ⟨?_, ?_, ?_, ?_, ?_, ?_, ?_⟩
  · exact (C8_trigger_key_presence_governs_each_transform ⟨2, 3, fun _ _ => (7, 8, 9)⟩
      (10, 10) "100x100" [("pad", PyVal.bool true)]).1 (by decide) (by decide)
  · exact (C8_trigger_key_presence_governs_each_transform ⟨2, 3, fun _ _ => (7, 8, 9)⟩
      (10, 10) "100x100" [("ltbx", PyVal.bool true)]).2.2.2.1 (by decide)
  · exact (C8_trigger_key_presence_governs_each_transform ⟨2, 3, fun _ _ => (7, 8, 9)⟩
      (10, 10) "100x100" [("invert", PyVal.bool true)]).2.2.2.2.2.1 (by decide)
  · exact (C8_trigger_key_presence_governs_each_transform ⟨2, 3, fun _ _ => (7, 8, 9)⟩
      (10, 10) "100x100" [("round", PyVal.bool true)]).2.2.2.2.2.2.2.2.1 (by decide)
  · exact (C8_trigger_key_presence_governs_each_transform ⟨2, 3, fun _ _ => (7, 8, 9)⟩
      (10, 10) "100x100" [("fit_x", PyVal.bool true)]).2.2.2.2.2.2.2.2.2.2.2.1
      (by decide) (by decide) (by decide)
  · exact (C8_trigger_key_presence_governs_each_transform ⟨2, 3, fun _ _ => (7, 8, 9)⟩
      (10, 10) "100x100" [("pad", PyVal.bool true)]).2.2.2.2.2.2.2.2.2.2.2.2.2.1
      (by decide)
  · exact (C8_trigger_key_presence_governs_each_transform ⟨2, 3, fun _ _ => (7, 8, 9)⟩
      (10, 10) "100x100" [("invert", PyVal.bool false)]).2.2.2.2.1 (by decide)

end CustomSorl
